import Mathlib

/-!
Shallow embedding of the Gratoms repository slice:
- `controllers/adminWithdrawalController.js` (src/unnamed/part_000): an admin
  withdrawal service with three handlers: `getAllWithdrawals`,
  `updateWithdrawalStatus` and `getWithdrawalStats`, operating on a relational
  store of `Withdrawal` and `User` rows inside one transaction per request.
- `src/server/modules/invest/accuralEmail.js`: the `roiAccrualEmail` formatter
  that renders an HTML document and hands it to an injected mail transport.

The store is modelled as explicit lists of rows; a handler is a pure function
from (store, request) to (store, response), where returning the input store
models a rolled-back transaction and returning an updated store models a
committed one. JS strings stay `String`, JS numbers for ids and timestamps are
`Nat`, monetary amounts are `Int` (cents are used for the e-mail formatter,
whose `toFixed(2)` is two-decimal rendering). Nullable columns are `Option`.
-/

namespace Gratoms

/-- A `User` row: identifier, email, username, wallet balance. -/
structure User where
  id : Nat
  email : String
  username : String
  walletBalance : Int
deriving Repr, DecidableEq

/-- A `Withdrawal` row with the columns the controller reads and writes.
`status` is the JS string field; the five meaningful values are
"pending", "confirmed", "completed", "failed", "rejected". -/
structure Withdrawal where
  id : Nat
  transaction_id : String
  amount : Int
  withdrawalMethod : String
  walletAddress : String
  status : String
  createdAt : Nat
  processed_at : Option Nat
  completed_at : Option Nat
  userId : Nat
  admin_notes : Option String
  processed_by : Option Nat
deriving Repr, DecidableEq

/-- The relational store the controller mutates through a transaction. -/
structure Store where
  withdrawals : List Withdrawal
  users : List User
deriving Repr, DecidableEq

/-- Shared HTTP response envelope `\x7bsuccess, message\x7d` with status code. -/
structure ApiResp where
  code : Nat
  success : Bool
  message : String
deriving Repr, DecidableEq

/-- `const validStatuses = ['confirmed', 'completed', 'failed', 'rejected']`. -/
def validStatuses : List String := ["confirmed", "completed", "failed", "rejected"]

/-- Modelled from the spec: `sendErrorResponse` (src/utils/commonUtils.js is not
in the sources) produces a generic error envelope with the given status code and
message and `success: false`, not leaking internal error detail. -/
def sendErrorResponse (code : Nat) (message : String) : ApiResp :=
  { code := code, success := false, message := message }

/-- Modelled from the spec: `handleValidationErrors` (src/utils/commonUtils.js is
not in the sources) returns a 400-class validation error response when request
validation fails; requests carry a boolean saying whether it fires. -/
def validationErrorResp : ApiResp :=
  { code := 400, success := false, message := "Validation failed" }

/-- `Withdrawal.findByPk(id, ...)`: first row whose primary key matches. -/
def findByPk (store : Store) (i : Nat) : Option Withdrawal :=
  store.withdrawals.find? (fun w => w.id == i)

/-- Look up a user row by primary key (used to observe wallet balances). -/
def findUser (store : Store) (uid : Nat) : Option User :=
  store.users.find? (fun u => u.id == uid)

/-- `User.update(\x7bwalletBalance: walletBalance + amount\x7d, \x7bwhere: \x7bid: uid\x7d\x7d)`:
the refund write performed for failed/rejected transitions. -/
def refundUser (users : List User) (uid : Nat) (amount : Int) : List User :=
  users.map (fun u =>
    if u.id == uid then { u with walletBalance := u.walletBalance + amount } else u)

/-- The `updateData` object built by `updateWithdrawalStatus`:
new status, `processed_at` = now, `processed_by` = acting admin id, the
optional `admin_notes` key (present only when `adminNotes` is truthy) and the
optional `completed_at` key (present only when the new status is completed). -/
structure UpdateData where
  status : String
  processed_at : Nat
  processed_by : Nat
  admin_notes : Option String
  completed_at : Option Nat
deriving Repr, DecidableEq

/-- Build `updateData` as the source does: `admin_notes` is added only when the
request's `adminNotes` is truthy (a present, non-empty string), and
`completed_at` is added only for a transition to completed. -/
def buildUpdateData (s : String) (now : Nat) (adminId : Nat)
    (adminNotes : Option String) : UpdateData :=
  { status := s
    processed_at := now
    processed_by := adminId
    admin_notes :=
      match adminNotes with
      | some n => if n == "" then none else some n
      | none => none
    completed_at := if s == "completed" then some now else none }

/-- `withdrawal.update(updateData)`: columns absent from `updateData` keep the
row's previous value. -/
def applyUpdateData (w : Withdrawal) (d : UpdateData) : Withdrawal :=
  { w with
    status := d.status
    processed_at := some d.processed_at
    processed_by := some d.processed_by
    admin_notes :=
      match d.admin_notes with
      | some n => some n
      | none => w.admin_notes
    completed_at :=
      match d.completed_at with
      | some t => some t
      | none => w.completed_at }

/-- The `updateWithdrawalStatus` request: the external validator outcome, the
`id` path parameter, the `\x7bstatus, adminNotes\x7d` body, `req.user?.id` (absent
when no authenticated admin is attached to the request) and the current time
used for `new Date()`. -/
structure UpdateReq where
  validationFails : Bool
  id : Nat
  status : Option String
  adminNotes : Option String
  adminId : Option Nat
  now : Nat
deriving Repr, DecidableEq

/-- `updateWithdrawalStatus(req, res)` from the controller, as a pure function
from (store, request) to (post-transaction store, response). Every early
`transaction.rollback()` path returns the store unchanged; the single success
path commits the refund (for failed/rejected) together with the row update.
Reading `req.user.id` with no `req.user` throws, is caught, rolls back and
yields the generic 500 response. -/
def updateWithdrawalStatus (store : Store) (req : UpdateReq) : Store × ApiResp :=
  if req.validationFails then
    (store, validationErrorResp)
  else
    match req.status with
    | none =>
      (store, { code := 400, success := false, message := "Status is required" })
    | some s =>
      if validStatuses.contains s then
        match findByPk store req.id with
        | none =>
          (store, { code := 404, success := false, message := "Withdrawal not found" })
        | some w =>
          if w.status != "pending" && w.status != "confirmed" then
            (store,
             { code := 400, success := false,
               message := "Withdrawal cannot be updated from " ++ w.status ++ " status" })
          else
            match req.adminId with
            | none => (store, sendErrorResponse 500 "Failed to update withdrawal status")
            | some adminId =>
              let d := buildUpdateData s req.now adminId req.adminNotes
              let users1 :=
                if s == "failed" || s == "rejected" then
                  refundUser store.users w.userId w.amount
                else store.users
              let ws1 :=
                store.withdrawals.map (fun x =>
                  if x.id == w.id then applyUpdateData x d else x)
              ({ withdrawals := ws1, users := users1 },
               { code := 200, success := true,
                 message := "Withdrawal " ++ s ++ " successfully" })
      else
        (store,
         { code := 400, success := false,
           message := "Invalid status. Must be one of: " ++
             String.intercalate ", " validStatuses })

/-- The `getAllWithdrawals` query: validator outcome and the optional
`status` and `userId` query parameters (`userId` already coerced to the key
type). -/
structure ListQuery where
  validationFails : Bool
  status : Option String
  userId : Option Nat
deriving Repr, DecidableEq

/-- JS truthiness of an optional query string: present and non-empty. -/
def truthyOptStr : Option String → Bool
  | none => false
  | some s => !(s == "")

/-- The `whereClause` built by `getAllWithdrawals`: `status` is added when the
query string is truthy, `userId` when present. -/
def whereMatches (q : ListQuery) (w : Withdrawal) : Bool :=
  (if truthyOptStr q.status then w.status == q.status.getD "" else true) &&
  (match q.userId with
   | some uid => w.userId == uid
   | none => true)

/-- `order: [['createdAt', 'DESC']]` as a relation: a row comes no later than
rows with smaller-or-equal creation time. -/
def createdDesc (a b : Withdrawal) : Prop := b.createdAt ≤ a.createdAt

instance : DecidableRel createdDesc := fun a b => Nat.decLe b.createdAt a.createdAt

instance : IsTotal Withdrawal createdDesc :=
  ⟨fun a b => Nat.le_total b.createdAt a.createdAt⟩

instance : IsTrans Withdrawal createdDesc :=
  ⟨fun _ _ _ hab hbc => Nat.le_trans hbc hab⟩

/-- The `getAllWithdrawals` response: envelope plus
`data: \x7bwithdrawals, total\x7d`. -/
structure ListResp where
  code : Nat
  success : Bool
  message : String
  withdrawals : List Withdrawal
  total : Nat
deriving Repr, DecidableEq

/-- `getAllWithdrawals(req, res)`: filter by the where-clause, order by
creation time descending, and answer 200 with the rows and their count;
the message alone distinguishes the empty result. -/
def getAllWithdrawals (store : Store) (q : ListQuery) : ListResp :=
  if q.validationFails then
    { code := validationErrorResp.code, success := false,
      message := validationErrorResp.message, withdrawals := [], total := 0 }
  else
    let rows := List.insertionSort createdDesc (store.withdrawals.filter (whereMatches q))
    { code := 200, success := true,
      message :=
        if rows.isEmpty then "No withdrawals found"
        else "Withdrawals retrieved successfully",
      withdrawals := rows, total := rows.length }

/-- One `GROUP BY status` row of the statistics query: the status, `COUNT(id)`
and `SUM(amount)` over that group. -/
structure StatGroup where
  status : String
  count : Nat
  totalAmount : Int
deriving Repr, DecidableEq

/-- `Withdrawal.findAll(\x7bgroup: ['status'], ...\x7d)`: one group per status value
present among the rows, with its count and summed amount. -/
def groupStats (ws : List Withdrawal) : List StatGroup :=
  ((ws.map (fun w => w.status)).dedup).map (fun st =>
    { status := st
      count := (ws.filter (fun w => w.status == st)).length
      totalAmount := ((ws.filter (fun w => w.status == st)).map (fun w => w.amount)).sum })

/-- `Withdrawal.sum('amount')`: SQL `SUM` is `NULL` on an empty table. -/
def sumAmount (ws : List Withdrawal) : Option Int :=
  match ws with
  | [] => none
  | _ => some ((ws.map (fun w => w.amount)).sum)

/-- JS `totalAmount || 0`: `null` and `0` are falsy, any other number passes. -/
def jsOrZero : Option Int → Int
  | none => 0
  | some v => if v == 0 then 0 else v

/-- The `getWithdrawalStats` response: envelope plus
`data: \x7bstats, totalWithdrawals, totalAmount\x7d`. -/
structure StatsResp where
  code : Nat
  success : Bool
  message : String
  stats : List StatGroup
  totalWithdrawals : Nat
  totalAmount : Int
deriving Repr, DecidableEq

/-- `getWithdrawalStats(req, res)`: the grouped rows, `Withdrawal.count()` and
`Withdrawal.sum('amount') || 0`. -/
def getWithdrawalStats (store : Store) (validationFails : Bool) : StatsResp :=
  if validationFails then
    { code := validationErrorResp.code, success := false,
      message := validationErrorResp.message, stats := [],
      totalWithdrawals := 0, totalAmount := 0 }
  else
    { code := 200, success := true,
      message := "Withdrawal statistics retrieved successfully",
      stats := groupStats store.withdrawals,
      totalWithdrawals := store.withdrawals.length,
      totalAmount := jsOrZero (sumAmount store.withdrawals) }

/-! ### `src/server/modules/invest/accuralEmail.js` — `roiAccrualEmail`

The HTML template literal, transcribed verbatim; the template is split at its
interpolation points (and long runs of literal text are split at line
boundaries) into the `roiSeg` segments below, whose concatenation with the
interpolated values is exactly the source template. Text braces are written
as escapes. The ROI amount is a JS number rendered by `toFixed(2)`; it is
modelled in cents, with `toFixed2` producing the two-decimal rendering. The
locale-rendered date and the current year are runtime/locale dependent and are
taken as the already-rendered strings. -/

def roiSeg0 : String :=
  "\n            <!DOCTYPE html>\n            <html>\n            <head>\n              <meta charset=\"UTF-8\">\n              <meta name=\"viewport\" content=\"width=device-width, initial-scale=1.0\">\n              <title>Daily ROI Credit - Gratoms</title>\n              <style>\n                body \x7b font-family: \x27Segoe UI\x27, Tahoma, Geneva, Verdana, sans-serif; line-height: 1.6; color: #333; max-width: 600px; margin: 0 auto; padding: 20px; background-color: #f9f9f9; \x7d\n                .header \x7b background: linear-gradient(135deg, #8b5cf6 0%, #7c3aed 100%); padding: 30px; text-align: center; border-radius: 10px 10px 0 0; \x7d\n"

def roiSeg1 : String :=
  "                .logo \x7b color: white; font-size: 28px; font-weight: bold; margin: 0; \x7d\n                .content \x7b background: white; padding: 30px; border-radius: 0 0 10px 10px; box-shadow: 0 4px 6px rgba(0, 0, 0, 0.1); \x7d\n                .status-badge \x7b \n                  background: #10b981; color: white; padding: 8px 16px; border-radius: 20px; \n                  font-size: 14px; font-weight: bold; display: inline-block; margin-bottom: 20px;\n                \x7d\n                .amount \x7b font-size: 32px; font-weight: bold; color: #7c3aed; margin: 10px 0; \x7d\n"

def roiSeg2 : String :=
  "                .investment-details \x7b background: #faf5ff; padding: 20px; border-radius: 8px; margin: 20px 0; \x7d\n                .detail-row \x7b display: flex; justify-content: space-between; padding: 8px 0; border-bottom: 1px solid #ede9fe; \x7d\n                .detail-row:last-child \x7b border-bottom: none; \x7d\n                .progress-bar \x7b background: #ede9fe; height: 8px; border-radius: 4px; margin: 15px 0; overflow: hidden; \x7d\n                .progress-fill \x7b background: linear-gradient(90deg, #8b5cf6 0%, #7c3aed 100%); height: 100%; width: 0%; transition: width 2s; \x7d\n"

def roiSeg3 : String :=
  "                .footer \x7b text-align: center; margin-top: 30px; padding-top: 20px; border-top: 1px solid #e2e8f0; color: #718096; \x7d\n              </style>\n            </head>\n            <body>\n              <div class=\"header\">\n                <h1 class=\"logo\">💰 Daily ROI Credited</h1>\n              </div>\n              \n              <div class=\"content\">\n                <div class=\"status-badge\">✅ CREDITED</div>\n                \n                <p>Your daily ROI has been successfully credited to your account.</p>\n                \n                <div style=\"text-align: center; margin: 30px 0;\">\n                  <div class=\"amount\">"

def roiSeg4 : String :=
  " USD</div>\n                  <p>credited for <strong>"

def roiSeg5 : String :=
  "</strong></p>\n                </div>\n        \n                <div class=\"investment-details\">\n                  <h3 style=\"margin-top: 0;\">Transaction Details</h3>\n                  <div class=\"detail-row\">\n                    <span>Transaction ID:</span>\n                    <span><strong>"

def roiSeg6 : String :=
  "</strong></span>\n                  </div>\n                  <div class=\"detail-row\">\n                    <span>Investment ID:</span>\n                    <span><strong>"

def roiSeg7 : String :=
  "</strong></span>\n                  </div>\n                  <div class=\"detail-row\">\n                    <span>Plan Name:</span>\n                    <span><strong>"

def roiSeg8 : String :=
  "</strong></span>\n                  </div>\n                  <div class=\"detail-row\">\n                    <span>ROI Amount:</span>\n                    <span><strong>"

def roiSeg9 : String :=
  " USD</strong></span>\n                  </div>\n                  <div class=\"detail-row\">\n                    <span>Date:</span>\n                    <span><strong>"

def roiSeg10 : String :=
  "</strong></span>\n                  </div>\n                </div>\n        \n                <div class=\"progress-bar\">\n                  <div class=\"progress-fill\" style=\"width: 0%\"></div>\n                </div>\n                <p style=\"text-align: center; color: #6b7280;\">Your investment is growing daily</p>\n        \n                <p><strong>💡 Tip:</strong> Check your transaction history in your dashboard for more details.</p>\n              </div>\n              \n              <div class=\"footer\">\n                <p>© "

def roiSeg11 : String :=
  " Gratoms. All rights reserved.</p>\n                <p>Happy investing! 📊</p>\n              </div>\n          \n              <script>\n                setTimeout(() => \x7b\n                  document.querySelector(\x27.progress-fill\x27).style.width = \x27100%\x27;\n                \x7d, 1000);\n              </script>\n            </body>\n            </html>\n          "

/-- Two-digit zero-padded rendering of a value below 100. -/
def pad2 (n : Nat) : String := (if n < 10 then "0" else "") ++ toString n

/-- `roiAmount.toFixed(2)` on an amount held in cents. -/
def toFixed2 (cents : Nat) : String :=
  toString (cents / 100) ++ "." ++ pad2 (cents % 100)

/-- The `html` field of `mailOptions`: the full template with the six values
interpolated. -/
def roiAccrualHtml (planName : String) (roiAmountCents : Nat)
    (transactionId : String) (dateLocale : String) (investmentId : String)
    (year : String) : String :=
  roiSeg0 ++ roiSeg1 ++ roiSeg2 ++ roiSeg3 ++ toFixed2 roiAmountCents ++
  roiSeg4 ++ planName ++ roiSeg5 ++ transactionId ++ roiSeg6 ++ investmentId ++
  roiSeg7 ++ planName ++ roiSeg8 ++ toFixed2 roiAmountCents ++ roiSeg9 ++
  dateLocale ++ roiSeg10 ++ year ++ roiSeg11

/-- Does `pat` occur at the very start of `s`? -/
def isPrefixAt : List Char → List Char → Bool
  | [], _ => true
  | _ :: _, [] => false
  | p :: ps, c :: cs => p == c && isPrefixAt ps cs

/-- Number of positions of `s` at which `pat` occurs. -/
def countOcc (pat : List Char) : List Char → Nat
  | [] => 0
  | c :: cs => (if isPrefixAt pat (c :: cs) then 1 else 0) + countOcc pat cs

/-- Number of occurrences of the substring `pat` in `s`. -/
def countSubstring (pat s : String) : Nat := countOcc pat.toList s.toList

/-- The argument object of `roiAccrualEmail`:
`\x7bemail, planName, roiAmount, transactionId, date, investmentId\x7d`. -/
structure RoiEmailArgs where
  email : String
  planName : String
  roiAmountCents : Nat
  transactionId : String
  dateLocale : String
  investmentId : String
deriving Repr, DecidableEq

/-- The object handed to `transporter.sendMail`:
`\x7bfrom, to, subject, html\x7d`. -/
structure MailOptions where
  fromAddr : String
  toAddr : String
  subject : String
  html : String
deriving Repr, DecidableEq

/-- The `mailOptions` object built by `roiAccrualEmail`; `envFrom` is
`process.env.EMAIL_USER` and `year` the current year of the footer. -/
def mkMailOptions (envFrom year : String) (a : RoiEmailArgs) : MailOptions :=
  { fromAddr := envFrom
    toAddr := a.email
    subject := "Daily ROI Credit - Gratoms"
    html := roiAccrualHtml a.planName a.roiAmountCents a.transactionId
      a.dateLocale a.investmentId year }

/-- `roiAccrualEmail`: build `mailOptions`, invoke the injected send-mail
capability once with it, and either log success, or log the underlying cause
and throw the generic error. Returns the outcome together with the log
lines written. -/
def roiAccrualEmail (envFrom year : String) (a : RoiEmailArgs)
    (sendMail : MailOptions → Except String Unit) : Except String Unit × List String :=
  match sendMail (mkMailOptions envFrom year a) with
  | Except.ok _ =>
    (Except.ok (),
     ["ROI accrual email sent to " ++ a.email ++ " for transaction " ++ a.transactionId])
  | Except.error e =>
    (Except.error "Failed to send ROI email", ["ROI email sending error: " ++ e])

/-! ### Sample data shared by the concrete witness instances. -/

/-- A pending withdrawal of amount 50 owned by user 7. -/
def wPending : Withdrawal :=
  { id := 1, transaction_id := "T1", amount := 50, withdrawalMethod := "crypto",
    walletAddress := "0xabc", status := "pending", createdAt := 10,
    processed_at := none, completed_at := none, userId := 7,
    admin_notes := none, processed_by := none }

/-- A completed (terminal) withdrawal owned by user 7. -/
def wCompleted : Withdrawal :=
  { id := 2, transaction_id := "T2", amount := 20, withdrawalMethod := "bank",
    walletAddress := "0xdef", status := "completed", createdAt := 5,
    processed_at := some 6, completed_at := some 6, userId := 7,
    admin_notes := none, processed_by := some 99 }

/-- The owning user with wallet balance 100. -/
def uAlice : User :=
  { id := 7, email := "alice@example.com", username := "alice", walletBalance := 100 }

/-- A small store with one pending and one completed withdrawal. -/
def sampleStore : Store := { withdrawals := [wPending, wCompleted], users := [uAlice] }

/-- Sample arguments for the ROI accrual e-mail. -/
def sampleArgs : RoiEmailArgs :=
  { email := "user@example.com", planName := "Starter Plan", roiAmountCents := 1250,
    transactionId := "TX100", dateLocale := "10/11/2026", investmentId := "INV7" }

/-- Request: transition withdrawal 1 to failed, acting admin 99. -/
def reqFailPending : UpdateReq :=
  { validationFails := false, id := 1, status := some "failed",
    adminNotes := none, adminId := some 99, now := 1000 }

/-- Request: transition withdrawal 1 to completed, acting admin 99. -/
def reqCompletePending : UpdateReq :=
  { validationFails := false, id := 1, status := some "completed",
    adminNotes := none, adminId := some 99, now := 1000 }

/-- Request: transition the terminal withdrawal 2 to rejected. -/
def reqRejectCompleted : UpdateReq :=
  { validationFails := false, id := 2, status := some "rejected",
    adminNotes := none, adminId := some 99, now := 1000 }

/-- Request on withdrawal 1 with the status field missing from the body. -/
def reqMissingStatus : UpdateReq :=
  { validationFails := false, id := 1, status := none,
    adminNotes := none, adminId := some 99, now := 1000 }

/-- Request on withdrawal 1 with a status value outside the valid set. -/
def reqBadStatus : UpdateReq :=
  { validationFails := false, id := 1, status := some "pending",
    adminNotes := none, adminId := some 99, now := 1000 }

/-- Request on withdrawal 1 with no authenticated admin attached. -/
def reqNoAdmin : UpdateReq :=
  { validationFails := false, id := 1, status := some "confirmed",
    adminNotes := none, adminId := none, now := 1000 }

/-- Listing query filtering on status pending. -/
def qPending : ListQuery :=
  { validationFails := false, status := some "pending", userId := none }

/-- Listing query whose filter matches no row of the sample store. -/
def qNoMatch : ListQuery :=
  { validationFails := false, status := some "rejected", userId := none }

/-! ### Substring-counting lemmas used to evaluate the template in chunks. -/

theorem toList_append (s t : String) : (s ++ t).toList = s.toList ++ t.toList := rfl

theorem isPrefixAt_false_of_short (pat : List Char) :
    ∀ l : List Char, l.length < pat.length → isPrefixAt pat l = false := by
  induction pat with
  | nil => intro l h; simp at h
  | cons p ps ih =>
    intro l h
    cases l with
    | nil => rfl
    | cons c cs =>
      have h2 : cs.length < ps.length := by
        simpa using Nat.lt_of_succ_lt_succ h
      simp [isPrefixAt, ih cs h2]

theorem countOcc_eq_zero_of_short (pat : List Char) :
    ∀ l : List Char, l.length < pat.length → countOcc pat l = 0 := by
  intro l
  induction l with
  | nil => intro _; rfl
  | cons c cs ih =>
    intro h
    have h2 : cs.length < pat.length :=
      Nat.lt_of_le_of_lt (by simp) h
    simp [countOcc, isPrefixAt_false_of_short pat _ h, ih h2]

theorem isPrefixAt_take (pat : List Char) :
    ∀ l : List Char, isPrefixAt pat l = isPrefixAt pat (l.take pat.length) := by
  induction pat with
  | nil => intro l; rfl
  | cons p ps ih =>
    intro l
    cases l with
    | nil => rfl
    | cons c cs =>
      simp only [List.length_cons, List.take_succ_cons, isPrefixAt]
      rw [ih cs]

theorem countOcc_append (pat : List Char) (hp : 0 < pat.length) :
    ∀ s₁ s₂ : List Char, countOcc pat (s₁ ++ s₂) =
      countOcc pat (s₁ ++ s₂.take (pat.length - 1)) + countOcc pat s₂ := by
  intro s₁
  induction s₁ with
  | nil =>
    intro s₂
    have hshort : (s₂.take (pat.length - 1)).length < pat.length := by
      rw [List.length_take]
      exact Nat.lt_of_le_of_lt (Nat.min_le_left _ _) (Nat.sub_lt hp Nat.one_pos)
    simp [countOcc_eq_zero_of_short pat _ hshort]
  | cons c t ih =>
    intro s₂
    simp only [List.cons_append, countOcc, List.append_eq]
    rw [ih s₂]
    have hhit : isPrefixAt pat (c :: (t ++ s₂)) =
        isPrefixAt pat (c :: (t ++ s₂.take (pat.length - 1))) := by
      rw [isPrefixAt_take pat (c :: (t ++ s₂)),
        isPrefixAt_take pat (c :: (t ++ s₂.take (pat.length - 1)))]
      obtain ⟨k, hk⟩ : ∃ k, pat.length = k + 1 :=
        ⟨pat.length - 1, (Nat.succ_pred_eq_of_pos hp).symm⟩
      have hk1 : pat.length - 1 = k := by omega
      rw [hk1, hk, List.take_succ_cons, List.take_succ_cons,
        List.take_append_eq_append_take, List.take_append_eq_append_take,
        List.take_take]
      have hmin : min (k - t.length) k = k - t.length :=
        Nat.min_eq_left (Nat.sub_le _ _)
      rw [hmin]
    simp only [hhit]
    omega

theorem countOcc_chunk (pat : List Char) (hp : 0 < pat.length) (c rest : List Char)
    (n m k : Nat) (h1 : countOcc pat (c ++ rest.take (pat.length - 1)) = n)
    (h2 : countOcc pat rest = m) (hk : n + m = k) :
    countOcc pat (c ++ rest) = k := by
  rw [countOcc_append pat hp c rest, h1, h2, hk]

theorem pad2_length_of_lt : ∀ n : Nat, n < 100 → (pad2 n).length = 2 := by decide

set_option maxRecDepth 20000 in
/-- C8: invoked with an ROI amount of 12.5 (1250 cents) and benign other
fields, the produced HTML contains the literal substring "12.50 USD" exactly
twice (summary amount and ROI Amount detail row); in general the amount is
embedded via `toFixed2`, which renders exactly two decimal places. -/
theorem roiAccrualHtml_contains_amount_twice :
    countSubstring "12.50 USD"
      (roiAccrualHtml "Starter Plan" 1250 "TX100" "10/11/2026" "INV7" "2026") = 2 ∧
    ∀ cents : Nat,
      toFixed2 cents = toString (cents / 100) ++ "." ++ pad2 (cents % 100) ∧
      (pad2 (cents % 100)).length = 2 := by
  constructor
  · simp only [countSubstring, roiAccrualHtml, toList_append, List.append_assoc]
    refine countOcc_chunk _ (by decide) _ _ 0 2 2 (by decide) ?_ (by decide)
    refine countOcc_chunk _ (by decide) _ _ 0 2 2 (by decide) ?_ (by decide)
    refine countOcc_chunk _ (by decide) _ _ 0 2 2 (by decide) ?_ (by decide)
    refine countOcc_chunk _ (by decide) _ _ 0 2 2 (by decide) ?_ (by decide)
    refine countOcc_chunk _ (by decide) _ _ 1 1 2 (by decide) ?_ (by decide)
    refine countOcc_chunk _ (by decide) _ _ 0 1 1 (by decide) ?_ (by decide)
    refine countOcc_chunk _ (by decide) _ _ 0 1 1 (by decide) ?_ (by decide)
    refine countOcc_chunk _ (by decide) _ _ 0 1 1 (by decide) ?_ (by decide)
    refine countOcc_chunk _ (by decide) _ _ 0 1 1 (by decide) ?_ (by decide)
    refine countOcc_chunk _ (by decide) _ _ 0 1 1 (by decide) ?_ (by decide)
    refine countOcc_chunk _ (by decide) _ _ 0 1 1 (by decide) ?_ (by decide)
    refine countOcc_chunk _ (by decide) _ _ 0 1 1 (by decide) ?_ (by decide)
    refine countOcc_chunk _ (by decide) _ _ 0 1 1 (by decide) ?_ (by decide)
    refine countOcc_chunk _ (by decide) _ _ 0 1 1 (by decide) ?_ (by decide)
    refine countOcc_chunk _ (by decide) _ _ 1 0 1 (by decide) ?_ (by decide)
    refine countOcc_chunk _ (by decide) _ _ 0 0 0 (by decide) ?_ (by decide)
    refine countOcc_chunk _ (by decide) _ _ 0 0 0 (by decide) ?_ (by decide)
    refine countOcc_chunk _ (by decide) _ _ 0 0 0 (by decide) ?_ (by decide)
    refine countOcc_chunk _ (by decide) _ _ 0 0 0 (by decide) ?_ (by decide)
    decide
  · intro cents
    refine ⟨rfl, ?_⟩
    exact pad2_length_of_lt (cents % 100) (Nat.mod_lt _ (by decide))

/-- C9: `roiAccrualEmail` surfaces the generic `Failed to send ROI email`
error exactly when the injected send-mail capability fails on the built
`mailOptions`; on failure it logs the underlying cause; and its whole outcome
depends only on the capability's answer for that single `mailOptions` value
(one send, no retry). On success it raises no error. -/
theorem roiAccrualEmail_error_iff_send_fails (envFrom year : String)
    (a : RoiEmailArgs) (sendMail : MailOptions → Except String Unit) :
    ((roiAccrualEmail envFrom year a sendMail).1 =
        Except.error "Failed to send ROI email" ↔
      ∃ e, sendMail (mkMailOptions envFrom year a) = Except.error e) ∧
    (∀ e, sendMail (mkMailOptions envFrom year a) = Except.error e →
      (roiAccrualEmail envFrom year a sendMail).2 = ["ROI email sending error: " ++ e]) ∧
    (∀ sendMail2 : MailOptions → Except String Unit,
      sendMail2 (mkMailOptions envFrom year a) = sendMail (mkMailOptions envFrom year a) →
      roiAccrualEmail envFrom year a sendMail2 = roiAccrualEmail envFrom year a sendMail) := by
  refine ⟨?_, ?_, ?_⟩
  · cases h : sendMail (mkMailOptions envFrom year a) with
    | ok u => simp [roiAccrualEmail, h]
    | error e => simp [roiAccrualEmail, h]
  · intro e he
    simp [roiAccrualEmail, he]
  · intro sendMail2 h2
    simp [roiAccrualEmail, h2]

/-- Witness for C9 at a concrete failing capability. -/
theorem roiAccrualEmail_error_iff_send_fails_witness :
    (roiAccrualEmail "noreply@gratoms.com" "2026" sampleArgs
        (fun _ => Except.error "SMTP down")).1 =
      Except.error "Failed to send ROI email" :=
  (roiAccrualEmail_error_iff_send_fails "noreply@gratoms.com" "2026" sampleArgs
    (fun _ => Except.error "SMTP down")).1.mpr ⟨"SMTP down", rfl⟩

/-! ### Controller lemmas and claim theorems. -/

theorem find?_map_update (l : List Withdrawal) (i : Nat) (w : Withdrawal)
    (d : UpdateData) (h : l.find? (fun x => x.id == i) = some w) :
    (l.map (fun x => if x.id == w.id then applyUpdateData x d else x)).find?
      (fun x => x.id == i) = some (applyUpdateData w d) := by
  induction l with
  | nil => simp at h
  | cons y ys ih =>
    cases hy : (y.id == i) with
    | true =>
      obtain rfl : y = w := by simpa [List.find?_cons, hy] using h
      rw [List.map_cons]
      have hhead : (if y.id == y.id then applyUpdateData y d else y) =
          applyUpdateData y d := by simp
      rw [hhead, List.find?_cons]
      have hcond : ((applyUpdateData y d).id == i) = true := hy
      rw [hcond]
    | false =>
      have h2 : List.find? (fun x => x.id == i) ys = some w := by
        simpa [List.find?_cons, hy] using h
      have hp := List.find?_some h2
      have hwi : w.id = i := eq_of_beq hp
      have hyw : (y.id == w.id) = false := by rw [hwi]; exact hy
      rw [List.map_cons]
      have hhead : (if y.id == w.id then applyUpdateData y d else y) = y := by
        simp [hyw]
      rw [hhead, List.find?_cons, hy]
      exact ih h2

theorem find?_refundUser (users : List User) (uid : Nat) (amt : Int) (u : User)
    (h : users.find? (fun x => x.id == uid) = some u) :
    (refundUser users uid amt).find? (fun x => x.id == uid) =
      some { u with walletBalance := u.walletBalance + amt } := by
  induction users with
  | nil => simp at h
  | cons y ys ih =>
    cases hy : (y.id == uid) with
    | true =>
      obtain rfl : y = u := by simpa [List.find?_cons, hy] using h
      simp only [refundUser, List.map_cons]
      have hhead : (if y.id == uid then
          { y with walletBalance := y.walletBalance + amt } else y) =
          { y with walletBalance := y.walletBalance + amt } := by simp [hy]
      rw [hhead, List.find?_cons]
      have hcond : (({ y with walletBalance := y.walletBalance + amt } : User).id
          == uid) = true := hy
      rw [hcond]
    | false =>
      have h2 : List.find? (fun x => x.id == uid) ys = some u := by
        simpa [List.find?_cons, hy] using h
      simp only [refundUser, List.map_cons]
      have hhead : (if y.id == uid then
          { y with walletBalance := y.walletBalance + amt } else y) = y := by
        simp [hy]
      rw [hhead, List.find?_cons, hy]
      exact ih h2

/-- C1: a withdrawal whose current status is terminal (completed, failed or
rejected) cannot be transitioned: for any requested target status the handler
answers a 400 response and the store — the withdrawal row and every wallet
balance — is returned unchanged (the transaction is rolled back before any
write); for target statuses in the valid set the message is the
invalid-transition one. -/
theorem updateWithdrawalStatus_terminal_unchanged (store : Store) (req : UpdateReq)
    (w : Withdrawal) (s : String) (hv : req.validationFails = false)
    (hs : req.status = some s) (hw : findByPk store req.id = some w)
    (ht : w.status = "completed" ∨ w.status = "failed" ∨ w.status = "rejected") :
    (updateWithdrawalStatus store req).1 = store ∧
    (updateWithdrawalStatus store req).2.code = 400 ∧
    (s ∈ validStatuses →
      (updateWithdrawalStatus store req).2.message =
        "Withdrawal cannot be updated from " ++ w.status ++ " status") := by
  have hterm : (w.status != "pending" && w.status != "confirmed") = true := by
    rcases ht with h | h | h <;> rw [h] <;> decide
  by_cases hmem : s ∈ validStatuses
  · have hc : validStatuses.contains s = true := List.elem_iff.mpr hmem
    simp [updateWithdrawalStatus, hv, hs, hw, hc, hterm, hmem]
  · have hc : validStatuses.contains s = false := by
      simpa using fun h2 => hmem (List.elem_iff.mp h2)
    simp [updateWithdrawalStatus, hv, hs, hc, hmem]

/-- Witness for C1: rejecting the completed withdrawal 2 changes nothing and
yields the 400 invalid-transition message. -/
theorem updateWithdrawalStatus_terminal_unchanged_witness :
    (updateWithdrawalStatus sampleStore reqRejectCompleted).1 = sampleStore ∧
    (updateWithdrawalStatus sampleStore reqRejectCompleted).2.code = 400 ∧
    (updateWithdrawalStatus sampleStore reqRejectCompleted).2.message =
      "Withdrawal cannot be updated from completed status" := by
  have h := updateWithdrawalStatus_terminal_unchanged sampleStore reqRejectCompleted
    wCompleted "rejected" rfl rfl (by decide) (Or.inl rfl)
  refine ⟨h.1, h.2.1, ?_⟩
  rw [h.2.2 (by decide)]
  decide

/-- C4: when the body's status field is missing, or present but outside
{confirmed, completed, failed, rejected}, the handler answers 400 with
`success: false`, the store is returned unchanged, and the response does not
depend on the store at all (no row is read or written). -/
theorem updateWithdrawalStatus_invalid_status (store : Store) (req : UpdateReq)
    (hv : req.validationFails = false)
    (h : req.status = none ∨ ∃ s, req.status = some s ∧ s ∉ validStatuses) :
    (updateWithdrawalStatus store req).1 = store ∧
    (updateWithdrawalStatus store req).2.code = 400 ∧
    (updateWithdrawalStatus store req).2.success = false ∧
    ∀ store2 : Store,
      (updateWithdrawalStatus store2 req).2 = (updateWithdrawalStatus store req).2 := by
  rcases h with h | ⟨s, hs, hns⟩
  · have heq : ∀ st : Store, updateWithdrawalStatus st req =
        (st, { code := 400, success := false, message := "Status is required" }) :=
      fun st => by simp [updateWithdrawalStatus, hv, h]
    exact ⟨by rw [heq], by rw [heq], by rw [heq], fun st2 => by rw [heq, heq]⟩
  · have hc : validStatuses.contains s = false := by
      simpa using fun h2 => hns (List.elem_iff.mp h2)
    have heq : ∀ st : Store, updateWithdrawalStatus st req =
        (st, { code := 400, success := false,
               message := "Invalid status. Must be one of: " ++
                 String.intercalate ", " validStatuses }) :=
      fun st => by simp [updateWithdrawalStatus, hv, hs, hc, hns]
    exact ⟨by rw [heq], by rw [heq], by rw [heq], fun st2 => by rw [heq, heq]⟩

/-- Witness for C4: a request with no status field leaves the store unchanged
and answers 400. -/
theorem updateWithdrawalStatus_invalid_status_witness :
    (updateWithdrawalStatus sampleStore reqMissingStatus).1 = sampleStore ∧
    (updateWithdrawalStatus sampleStore reqMissingStatus).2.code = 400 := by
  have h := updateWithdrawalStatus_invalid_status sampleStore reqMissingStatus rfl
    (Or.inl rfl)
  exact ⟨h.1, h.2.1⟩

/-- C10: on a pending or confirmed withdrawal with a valid requested status
but no acting-admin record on the request, building the update throws while
reading `req.user.id`, the transaction rolls back, and the generic 500
response is returned: the store is unchanged, so no status change and no
refund is committed. -/
theorem updateWithdrawalStatus_no_admin (store : Store) (req : UpdateReq)
    (w : Withdrawal) (s : String) (hv : req.validationFails = false)
    (hs : req.status = some s) (hcs : s ∈ validStatuses)
    (hw : findByPk store req.id = some w)
    (hst : w.status = "pending" ∨ w.status = "confirmed")
    (ha : req.adminId = none) :
    (updateWithdrawalStatus store req).1 = store ∧
    (updateWithdrawalStatus store req).2 =
      sendErrorResponse 500 "Failed to update withdrawal status" := by
  have hc : validStatuses.contains s = true := List.elem_iff.mpr hcs
  have hguard : (w.status != "pending" && w.status != "confirmed") = false := by
    rcases hst with h | h <;> rw [h] <;> decide
  constructor <;> simp [updateWithdrawalStatus, hv, hs, hc, hcs, hw, hguard, ha]

/-- Witness for C10: confirming withdrawal 1 with no admin on the request
changes nothing and yields the 500 response. -/
theorem updateWithdrawalStatus_no_admin_witness :
    (updateWithdrawalStatus sampleStore reqNoAdmin).1 = sampleStore ∧
    (updateWithdrawalStatus sampleStore reqNoAdmin).2 =
      sendErrorResponse 500 "Failed to update withdrawal status" :=
  updateWithdrawalStatus_no_admin sampleStore reqNoAdmin wPending "confirmed"
    rfl rfl (by decide) (by decide) (Or.inl rfl) rfl

/-- C2: on a pending or confirmed withdrawal, a transition to failed or
rejected succeeds (200) and the committed store shows both effects together:
the owning user's wallet balance is incremented by exactly the withdrawal's
amount and the withdrawal's status is the new one — the handler returns a
single committed store, so both writes become visible atomically (every
failure path instead returns the input store with neither write). -/
theorem updateWithdrawalStatus_refund (store : Store) (req : UpdateReq)
    (w : Withdrawal) (u : User) (s : String) (aid : Nat)
    (hv : req.validationFails = false) (hs : req.status = some s)
    (hfr : s = "failed" ∨ s = "rejected")
    (hw : findByPk store req.id = some w)
    (hst : w.status = "pending" ∨ w.status = "confirmed")
    (ha : req.adminId = some aid)
    (hu : findUser store w.userId = some u) :
    (updateWithdrawalStatus store req).2.code = 200 ∧
    (updateWithdrawalStatus store req).2.success = true ∧
    findUser (updateWithdrawalStatus store req).1 w.userId =
      some { u with walletBalance := u.walletBalance + w.amount } ∧
    ∃ w2, findByPk (updateWithdrawalStatus store req).1 req.id = some w2 ∧
      w2.status = s := by
  have hmem : s ∈ validStatuses := by rcases hfr with rfl | rfl <;> decide
  have hguard : (w.status != "pending" && w.status != "confirmed") = false := by
    rcases hst with h | h <;> rw [h] <;> decide
  have hrfp : s = "failed" ∨ s = "rejected" := hfr
  have heq : updateWithdrawalStatus store req =
      ({ withdrawals := store.withdrawals.map (fun x =>
           if x.id == w.id then
             applyUpdateData x (buildUpdateData s req.now aid req.adminNotes)
           else x),
         users := refundUser store.users w.userId w.amount },
       { code := 200, success := true,
         message := "Withdrawal " ++ s ++ " successfully" }) := by
    simp [updateWithdrawalStatus, hv, hs, hmem, hw, hguard, ha, hrfp]
  rw [heq]
  refine ⟨rfl, rfl, ?_, ?_⟩
  · exact find?_refundUser store.users w.userId w.amount u hu
  · exact ⟨applyUpdateData w (buildUpdateData s req.now aid req.adminNotes),
      find?_map_update store.withdrawals req.id w _ hw, rfl⟩

/-- Witness for C2: failing the pending withdrawal 1 (amount 50) answers 200
and raises the owner's balance from 100 to 150 in the same committed store. -/
theorem updateWithdrawalStatus_refund_witness :
    (updateWithdrawalStatus sampleStore reqFailPending).2.code = 200 ∧
    findUser (updateWithdrawalStatus sampleStore reqFailPending).1 wPending.userId =
      some { uAlice with walletBalance := uAlice.walletBalance + wPending.amount } := by
  have h := updateWithdrawalStatus_refund sampleStore reqFailPending wPending uAlice
    "failed" 99 rfl rfl (Or.inl rfl) (by decide) (Or.inl rfl) rfl (by decide)
  exact ⟨h.1, h.2.2.1⟩

/-- C3: on a successful transition the stored row has `processed_at` = now and
`processed_by` = the acting admin; a transition to completed additionally sets
`completed_at` = now (non-null), while a transition to confirmed does not
write `completed_at`, which therefore stays null when it was null. -/
theorem updateWithdrawalStatus_timestamps (store : Store) (req : UpdateReq)
    (w : Withdrawal) (s : String) (aid : Nat)
    (hv : req.validationFails = false) (hs : req.status = some s)
    (hmem : s ∈ validStatuses)
    (hw : findByPk store req.id = some w)
    (hst : w.status = "pending" ∨ w.status = "confirmed")
    (ha : req.adminId = some aid) :
    ∃ w2, findByPk (updateWithdrawalStatus store req).1 req.id = some w2 ∧
      w2.processed_at = some req.now ∧
      w2.processed_by = some aid ∧
      (s = "completed" → w2.completed_at = some req.now) ∧
      (s = "confirmed" → w2.completed_at = w.completed_at) ∧
      (s = "confirmed" → w.completed_at = none → w2.completed_at = none) := by
  have hguard : (w.status != "pending" && w.status != "confirmed") = false := by
    rcases hst with h | h <;> rw [h] <;> decide
  have heq : updateWithdrawalStatus store req =
      ({ withdrawals := store.withdrawals.map (fun x =>
           if x.id == w.id then
             applyUpdateData x (buildUpdateData s req.now aid req.adminNotes)
           else x),
         users := if s == "failed" || s == "rejected" then
           refundUser store.users w.userId w.amount else store.users },
       { code := 200, success := true,
         message := "Withdrawal " ++ s ++ " successfully" }) := by
    simp [updateWithdrawalStatus, hv, hs, hmem, hw, hguard, ha]
  rw [heq]
  exact ⟨applyUpdateData w (buildUpdateData s req.now aid req.adminNotes),
    find?_map_update store.withdrawals req.id w _ hw, rfl, rfl,
    fun h => by subst h; rfl, fun h => by subst h; rfl,
    fun h h0 => by subst h; exact h0⟩

/-- Witness for C3: completing the pending withdrawal 1 stores
`completed_at` = now. -/
theorem updateWithdrawalStatus_timestamps_witness :
    ∃ w2, findByPk (updateWithdrawalStatus sampleStore reqCompletePending).1
        reqCompletePending.id = some w2 ∧
      w2.completed_at = some reqCompletePending.now := by
  obtain ⟨w2, h1, _, _, h4, _, _⟩ := updateWithdrawalStatus_timestamps sampleStore
    reqCompletePending wPending "completed" 99 rfl rfl (by decide) (by decide)
    (Or.inl rfl) rfl
  exact ⟨w2, h1, h4 rfl⟩

/-- C6: for every store and filter the listing returns exactly the rows
matching the where-clause (as a permutation of the filtered store), in
non-increasing creation-time order; with a (non-empty) status filter every
returned row's status equals the filter and, when the userId filter is also
given, its owner matches too. -/
theorem getAllWithdrawals_filtered_sorted (store : Store) (q : ListQuery)
    (hv : q.validationFails = false) :
    ((getAllWithdrawals store q).withdrawals).Perm
      (store.withdrawals.filter (whereMatches q)) ∧
    List.Pairwise (fun a b : Withdrawal => b.createdAt ≤ a.createdAt)
      (getAllWithdrawals store q).withdrawals ∧
    ∀ s, q.status = some s → s ≠ "" →
      ∀ w ∈ (getAllWithdrawals store q).withdrawals,
        w.status = s ∧ ∀ uid, q.userId = some uid → w.userId = uid := by
  have heq : (getAllWithdrawals store q).withdrawals =
      List.insertionSort createdDesc (store.withdrawals.filter (whereMatches q)) := by
    simp [getAllWithdrawals, hv]
  refine ⟨?_, ?_, ?_⟩
  · rw [heq]
    exact List.perm_insertionSort createdDesc _
  · rw [heq]
    exact List.sorted_insertionSort createdDesc _
  · intro s hqs hne w hwmem
    rw [heq] at hwmem
    have hmem2 : w ∈ store.withdrawals.filter (whereMatches q) :=
      (List.perm_insertionSort createdDesc _).mem_iff.mp hwmem
    have hmatch : whereMatches q w = true := List.of_mem_filter hmem2
    simp [whereMatches, hqs, truthyOptStr, hne] at hmatch
    refine ⟨hmatch.1, ?_⟩
    intro uid huid
    have h2 := hmatch.2
    rw [huid] at h2
    simpa using h2

/-- Witness for C6: with the pending filter, the returned row of the sample
store has status pending (and the theorem's filter facts hold for it). -/
theorem getAllWithdrawals_filtered_sorted_witness :
    wPending.status = "pending" ∧
    ∀ uid, qPending.userId = some uid → wPending.userId = uid :=
  (getAllWithdrawals_filtered_sorted sampleStore qPending rfl).2.2 "pending" rfl
    (by decide) wPending (by decide)

/-- C7: a listing whose filter matches no row still answers 200 with
`success: true` and the same response shape, `data.withdrawals = []` and
`data.total = 0`, distinguished only by the message string — every
validation-passing listing answers 200 with `success: true`. -/
theorem getAllWithdrawals_empty_success (store : Store) (q : ListQuery)
    (hv : q.validationFails = false)
    (hempty : store.withdrawals.filter (whereMatches q) = []) :
    getAllWithdrawals store q =
      { code := 200, success := true, message := "No withdrawals found",
        withdrawals := [], total := 0 } ∧
    ∀ (store2 : Store) (q2 : ListQuery), q2.validationFails = false →
      (getAllWithdrawals store2 q2).code = 200 ∧
      (getAllWithdrawals store2 q2).success = true := by
  constructor
  · simp [getAllWithdrawals, hv, hempty]
  · intro store2 q2 hv2
    constructor <;> simp [getAllWithdrawals, hv2]

/-- Witness for C7: a filter matching nothing in the sample store yields the
empty 200 response. -/
theorem getAllWithdrawals_empty_success_witness :
    getAllWithdrawals sampleStore qNoMatch =
      { code := 200, success := true, message := "No withdrawals found",
        withdrawals := [], total := 0 } :=
  (getAllWithdrawals_empty_success sampleStore qNoMatch rfl (by decide)).1

theorem sum_map_filter_not {α M : Type} [AddCommMonoid M] (p : α → Bool)
    (f : α → M) :
    ∀ l : List α, ((l.filter p).map f).sum +
      ((l.filter (fun a => !(p a))).map f).sum = (l.map f).sum := by
  intro l
  induction l with
  | nil => simp
  | cons a t ih =>
    cases hp : p a with
    | true => simp [List.filter_cons, hp, ← ih, add_assoc]
    | false => simp [List.filter_cons, hp, ← ih, add_assoc, add_left_comm]

theorem sum_fiberwise {α M : Type} [AddCommMonoid M] (key : α → String)
    (f : α → M) :
    ∀ keys : List String, keys.Nodup → ∀ l : List α, (∀ a ∈ l, key a ∈ keys) →
      (keys.map (fun s => ((l.filter (fun a => key a == s)).map f).sum)).sum =
        (l.map f).sum := by
  intro keys
  induction keys with
  | nil =>
    intro _ l hcov
    cases l with
    | nil => rfl
    | cons a t => exact absurd (hcov a (List.mem_cons_self a t)) (List.not_mem_nil _)
  | cons s keys ih =>
    intro hnd l hcov
    obtain ⟨hs_not, hnd2⟩ := List.nodup_cons.mp hnd
    have hcov2 : ∀ a ∈ l.filter (fun a => !(key a == s)), key a ∈ keys := by
      intro a ha
      have hal : a ∈ l := List.mem_of_mem_filter ha
      have hns : (key a == s) = false := by
        have h2 := List.of_mem_filter ha
        simpa using h2
      rcases List.mem_cons.mp (hcov a hal) with h | h
      · rw [h] at hns; simp at hns
      · exact h
    have hfib : ∀ t ∈ keys, l.filter (fun a => key a == t) =
        (l.filter (fun a => !(key a == s))).filter (fun a => key a == t) := by
      intro t htk
      rw [List.filter_filter]
      refine List.filter_congr ?_
      intro a _
      cases hkt : (key a == t) with
      | false => simp [hkt]
      | true =>
        have hat : key a = t := eq_of_beq hkt
        have hts : t ≠ s := fun he => hs_not (he ▸ htk)
        have hks : (key a == s) = false :=
          beq_eq_false_iff_ne.mpr (by rw [hat]; exact hts)
        simp [hkt, hks]
    simp only [List.map_cons, List.sum_cons]
    have hmapeq : keys.map
        (fun t => ((l.filter (fun a => key a == t)).map f).sum) =
        keys.map (fun t => (((l.filter (fun a => !(key a == s))).filter
          (fun a => key a == t)).map f).sum) :=
      List.map_congr_left (fun t ht => by rw [hfib t ht])
    rw [hmapeq, ih hnd2 _ hcov2]
    exact sum_map_filter_not (fun a => key a == s) f l

theorem length_eq_sum_map_one {α : Type} (l : List α) :
    (l.map (fun _ => (1 : Nat))).sum = l.length := by
  induction l with
  | nil => rfl
  | cons a t ih => simp [ih, Nat.add_comm]

theorem groupStats_map_count (ws : List Withdrawal) :
    (groupStats ws).map (fun g => g.count) =
      ((ws.map Withdrawal.status).dedup).map
        (fun st => (ws.filter (fun w => w.status == st)).length) := by
  simp only [groupStats, List.map_map]
  rfl

theorem groupStats_map_amount (ws : List Withdrawal) :
    (groupStats ws).map (fun g => g.totalAmount) =
      ((ws.map Withdrawal.status).dedup).map
        (fun st => ((ws.filter (fun w => w.status == st)).map
          Withdrawal.amount).sum) := by
  simp only [groupStats, List.map_map]
  rfl

theorem jsOrZero_sumAmount (ws : List Withdrawal) :
    jsOrZero (sumAmount ws) = (ws.map (fun w => w.amount)).sum := by
  cases ws with
  | nil => rfl
  | cons a t =>
    simp only [sumAmount, jsOrZero]
    cases h : (((a :: t).map (fun w => w.amount)).sum == 0) with
    | true =>
      have h0 : ((a :: t).map (fun w => w.amount)).sum = 0 := eq_of_beq h
      rw [h0]
      simp
    | false => simp [h]

/-- C5: in the statistics response the per-status counts sum to
`totalWithdrawals` and the per-status amounts sum to `totalAmount`, and
`totalAmount` is 0 (not null) when the store holds no withdrawal rows. -/
theorem getWithdrawalStats_totals (store : Store) :
    ((getWithdrawalStats store false).stats.map (fun g => g.count)).sum =
      (getWithdrawalStats store false).totalWithdrawals ∧
    ((getWithdrawalStats store false).stats.map (fun g => g.totalAmount)).sum =
      (getWithdrawalStats store false).totalAmount ∧
    (store.withdrawals = [] →
      (getWithdrawalStats store false).totalAmount = 0) := by
  have hnd : ((store.withdrawals.map Withdrawal.status).dedup).Nodup :=
    List.nodup_dedup _
  have hcov : ∀ w ∈ store.withdrawals,
      Withdrawal.status w ∈ (store.withdrawals.map Withdrawal.status).dedup :=
    fun w hw => List.mem_dedup.mpr (List.mem_map_of_mem _ hw)
  refine ⟨?_, ?_, ?_⟩
  · show ((groupStats store.withdrawals).map (fun g => g.count)).sum =
      store.withdrawals.length
    have h1 := sum_fiberwise Withdrawal.status (fun _ => (1 : Nat))
      ((store.withdrawals.map Withdrawal.status).dedup) hnd store.withdrawals hcov
    have hmapeq : ((store.withdrawals.map Withdrawal.status).dedup).map
        (fun st => (store.withdrawals.filter (fun w => w.status == st)).length) =
        ((store.withdrawals.map Withdrawal.status).dedup).map
        (fun st => ((store.withdrawals.filter (fun w => w.status == st)).map
          (fun _ => (1 : Nat))).sum) :=
      List.map_congr_left (fun t _ => (length_eq_sum_map_one _).symm)
    rw [groupStats_map_count, hmapeq]
    rw [show (fun (a : Withdrawal) => (1 : Nat)) = (fun _ => (1 : Nat)) from rfl] at h1
    rw [h1]
    exact length_eq_sum_map_one store.withdrawals
  · show ((groupStats store.withdrawals).map (fun g => g.totalAmount)).sum =
      jsOrZero (sumAmount store.withdrawals)
    have h1 := sum_fiberwise Withdrawal.status Withdrawal.amount
      ((store.withdrawals.map Withdrawal.status).dedup) hnd store.withdrawals hcov
    rw [groupStats_map_amount, jsOrZero_sumAmount]
    exact h1
  · intro h
    show jsOrZero (sumAmount store.withdrawals) = 0
    rw [h]
    rfl

/-- Witness for C5: on the empty store the total amount is 0, not null. -/
theorem getWithdrawalStats_totals_witness :
    (getWithdrawalStats { withdrawals := [], users := [] } false).totalAmount = 0 :=
  (getWithdrawalStats_totals { withdrawals := [], users := [] }).2.2 rfl

end Gratoms
